import Mathlib

/-!
Verification of the FreeBSD sandbox substrate of this repository.

The development shallowly embeds the operations the spec's claims are about:

* the ZFS clone store of `src/freebsd/zfs.ts` (`ensureWorkspaceDataset`,
  `ensureSandboxDataset`, `cloneForSandbox`, `destroySandboxDataset`,
  `createBaseSnapshot`);
* the jail-sandbox module (`buildJailCreateArgs`, `jailExec`);
* the jail.conf helper `generateJailFstab` of `src/freebsd/jail.ts`;
* the Capsicum launcher `buildCapsicumLauncher` of the capsicum module.

The TypeScript functions are stateful: they issue external commands
(`/sbin/zfs`, `jexec`, ...) whose outcomes the process does not control.
The embedding makes that explicit: an environment record supplies the
outcome of each external command (success/failure, and whether a dataset
appeared concurrently), the ZFS world is a state of existing datasets and
snapshots, and every operation returns its result together with the next
world state and the trace of command argument vectors it invoked, exactly
the vectors built in the source.  Error messages in the source are produced
by a `fail` helper that prefers the tool's stderr text over a fallback
string; the claims only distinguish success from failure, so the model
carries the source's fallback message.
-/

namespace OpenClaw

/-- Result type mirroring `ZfsResult<T>` of zfs.ts:
`{ ok: true; value: T } | { ok: false; error: string }`. -/
inductive ZfsResult (α : Type) where
  | ok (value : α)
  | err (error : String)
deriving Repr, DecidableEq

/-- The ZFS world: which datasets and which snapshots (full `dataset@label`
names) currently exist.  External commands mutate it. -/
structure ZfsState where
  datasets : List String
  snapshots : List String
deriving Repr, DecidableEq

/-- Environment of external-command outcomes.  Each field answers "does this
`/sbin/zfs` invocation succeed?"; `raceAppears` answers "after a failed
`create`, does a re-check find the dataset (a concurrent creator won)?". -/
structure ZfsEnv where
  createOk : String → Bool
  raceAppears : String → Bool
  cloneOk : String → String → Bool
  destroyOk : String → Bool
  destroySnapOk : String → Bool
  snapshotOk : String → Bool

/-- Outcome of one zfs.ts operation: the returned `ZfsResult`, the world
state afterwards, and the trace of `/sbin/zfs` argument vectors invoked
(in order, including failing invocations). -/
structure ZfsOutcome (α : Type) where
  result : ZfsResult α
  state : ZfsState
  trace : List (List String)
deriving Repr

/-- `ZFS_DEFAULTS` of zfs.ts (the fields the embedded operations consult). -/
structure ZfsDefaults where
  poolName : String
  parentDataset : String
  workspacesDir : String
  sandboxesDir : String
  baseJailDataset : String
  defaultQuota : String
  compression : String
deriving Repr

def ZFS_DEFAULTS : ZfsDefaults :=
  { poolName := ""
    parentDataset := "freeclaw"
    workspacesDir := "workspaces"
    sandboxesDir := "sandboxes"
    baseJailDataset := "freeclaw/base-jail"
    defaultQuota := ""
    compression := "lz4" }

/-- Well-known snapshot label (`BASE_SNAPSHOT_LABEL` in zfs.ts). -/
def BASE_SNAPSHOT_LABEL : String := "freeclaw-base"

/-- `resolveWorkspaceDatasetName`: `<pool>/<parentDataset>/<workspacesDir>/<agentId>`.
The source first resolves the pool (`resolveZfsPool`); the embedding takes the
resolved pool name as a parameter, i.e. it models the paths on which pool
resolution succeeded. -/
def resolveWorkspaceDatasetName (pool agentId : String) : String :=
  pool ++ "/" ++ ZFS_DEFAULTS.parentDataset ++ "/" ++ ZFS_DEFAULTS.workspacesDir ++ "/" ++ agentId

/-- `resolveSandboxDatasetName`: `<pool>/<parentDataset>/<sandboxesDir>/<sessionKey>`. -/
def resolveSandboxDatasetName (pool sessionKey : String) : String :=
  pool ++ "/" ++ ZFS_DEFAULTS.parentDataset ++ "/" ++ ZFS_DEFAULTS.sandboxesDir ++ "/" ++ sessionKey

/-- Argument vector of the read-only existence probe
`zfs list -H -o name <dataset>` used by `datasetExists`. -/
def listCmd (dataset : String) : List String :=
  ["list", "-H", "-o", "name", dataset]

/-- Argument vector of the snapshot existence probe
`zfs list -H -t snapshot <snap>` used by `createBaseSnapshot`. -/
def listSnapCmd (snap : String) : List String :=
  ["list", "-H", "-t", "snapshot", snap]

/-- `datasetExists` of zfs.ts: probes `zfs list` and reports presence. -/
def datasetExists (s : ZfsState) (dataset : String) : Bool :=
  s.datasets.contains dataset

/-- Snapshot presence (probed via `zfs list -t snapshot`). -/
def snapshotExists (s : ZfsState) (snap : String) : Bool :=
  s.snapshots.contains snap

/-- World effect of a successful `zfs create`/`zfs clone` of one dataset.
(`create -p` also materialises intermediate ancestors; the model tracks the
target dataset, which is all the embedded code ever probes.) -/
def addDataset (s : ZfsState) (dataset : String) : ZfsState :=
  { s with datasets := dataset :: s.datasets }

/-- World effect of a successful `zfs snapshot`. -/
def addSnapshot (s : ZfsState) (snap : String) : ZfsState :=
  { s with snapshots := snap :: s.snapshots }

/-- World effect of a successful `zfs destroy <snap>` of a single snapshot. -/
def removeSnapshot (s : ZfsState) (snap : String) : ZfsState :=
  { s with snapshots := s.snapshots.filter (fun n => n ≠ snap) }

/-- Is `d` the dataset `ds` itself or a descendant dataset of it? -/
def underDataset (ds d : String) : Bool :=
  d == ds || (ds ++ "/").isPrefixOf d

/-- Is `snap` a snapshot of `ds` or of one of its descendants? -/
def snapUnderDataset (ds snap : String) : Bool :=
  (ds ++ "@").isPrefixOf snap || (ds ++ "/").isPrefixOf snap

/-- World effect of a successful recursive destroy `zfs destroy -r <ds>`:
the dataset, its descendant datasets, and all their snapshots are removed. -/
def destroyRecursive (s : ZfsState) (ds : String) : ZfsState :=
  { datasets := s.datasets.filter (fun d => !underDataset ds d)
    snapshots := s.snapshots.filter (fun n => !snapUnderDataset ds n) }

/-- A `/sbin/zfs` invocation is a side effect (mutates the pool) exactly when
it is a `create`, `clone`, `destroy` or `snapshot` subcommand; `list` is a
read-only query. -/
def isMutatingCmd (c : List String) : Bool :=
  match c.head? with
  | some "create" => true
  | some "clone" => true
  | some "destroy" => true
  | some "snapshot" => true
  | _ => false

/-- `ensureWorkspaceDataset` of zfs.ts: create
`<pool>/freeclaw/workspaces/<agentId>` if absent; on a failed create,
re-check existence (a concurrent creator may have won the race) and only
propagate the error when the dataset is still absent. -/
def ensureWorkspaceDataset (env : ZfsEnv) (s : ZfsState) (pool agentId : String) :
    ZfsOutcome String :=
  let dataset := resolveWorkspaceDatasetName pool agentId
  if datasetExists s dataset then
    { result := .ok dataset, state := s, trace := [listCmd dataset] }
  else
    let args := ["create", "-p"]
      ++ (if ZFS_DEFAULTS.compression ≠ "" then
            ["-o", "compression=" ++ ZFS_DEFAULTS.compression] else [])
      ++ [dataset]
    if env.createOk dataset then
      { result := .ok dataset, state := addDataset s dataset
        trace := [listCmd dataset, args] }
    else if datasetExists s dataset || env.raceAppears dataset then
      -- Race: another process created it between our check and create.
      { result := .ok dataset, state := addDataset s dataset
        trace := [listCmd dataset, args, listCmd dataset] }
    else
      { result := .err ("Failed to create workspace dataset: " ++ dataset), state := s
        trace := [listCmd dataset, args, listCmd dataset] }

/-- Index of the last occurrence of `c` in `cs` (TS `String.lastIndexOf`). -/
def lastIndexOfChar (cs : List Char) (c : Char) : Option Nat :=
  match cs with
  | [] => none
  | x :: xs =>
    match lastIndexOfChar xs c with
    | some i => some (i + 1)
    | none => if x = c then some 0 else none

/-- `cloneDataset.substring(0, cloneDataset.lastIndexOf("/"))` of
cloneForSandbox: everything before the last slash (empty when no slash,
as `substring(0, -1)` yields the empty string). -/
def parentOf (ds : String) : String :=
  match lastIndexOfChar ds.toList '/' with
  | some i => String.mk (ds.toList.take i)
  | none => ""

/-- Final step of `cloneForSandbox`: issue `zfs clone <base@snap> <clone>`
(the try/catch around the clone call in the source). -/
def cloneStep (env : ZfsEnv) (s : ZfsState) (baseSnapshot cloneDataset : String)
    (tr : List (List String)) : ZfsOutcome String :=
  if env.cloneOk baseSnapshot cloneDataset then
    { result := .ok cloneDataset, state := addDataset s cloneDataset
      trace := tr ++ [["clone", baseSnapshot, cloneDataset]] }
  else
    { result := .err ("Failed to clone for sandbox: " ++ cloneDataset), state := s
      trace := tr ++ [["clone", baseSnapshot, cloneDataset]] }

/-- `cloneForSandbox` of zfs.ts: return the sandbox dataset if it already
exists; otherwise ensure the parent dataset hierarchy exists (`create -p`,
tolerating a lost creation race by re-checking existence) and clone
`<pool>/freeclaw/base-jail@freeclaw-base` into it. -/
def cloneForSandbox (env : ZfsEnv) (s : ZfsState) (pool sessionKey : String) :
    ZfsOutcome String :=
  let baseSnapshot := pool ++ "/" ++ ZFS_DEFAULTS.baseJailDataset ++ "@" ++ BASE_SNAPSHOT_LABEL
  let cloneDataset := resolveSandboxDatasetName pool sessionKey
  if datasetExists s cloneDataset then
    { result := .ok cloneDataset, state := s, trace := [listCmd cloneDataset] }
  else
    let parentDataset := parentOf cloneDataset
    if datasetExists s parentDataset then
      cloneStep env s baseSnapshot cloneDataset
        [listCmd cloneDataset, listCmd parentDataset]
    else if env.createOk parentDataset then
      cloneStep env (addDataset s parentDataset) baseSnapshot cloneDataset
        [listCmd cloneDataset, listCmd parentDataset, ["create", "-p", parentDataset]]
    else if env.raceAppears parentDataset then
      -- Race condition — parent created concurrently; the re-check found it.
      cloneStep env (addDataset s parentDataset) baseSnapshot cloneDataset
        [listCmd cloneDataset, listCmd parentDataset, ["create", "-p", parentDataset],
         listCmd parentDataset]
    else
      { result := .err ("Failed to create parent dataset: " ++ parentDataset), state := s
        trace := [listCmd cloneDataset, listCmd parentDataset,
                  ["create", "-p", parentDataset], listCmd parentDataset] }

/-- `ensureSandboxDataset` of zfs.ts: return the dataset if it exists,
otherwise delegate to `cloneForSandbox`. -/
def ensureSandboxDataset (env : ZfsEnv) (s : ZfsState) (pool sessionKey : String) :
    ZfsOutcome String :=
  let dataset := resolveSandboxDatasetName pool sessionKey
  if datasetExists s dataset then
    { result := .ok dataset, state := s, trace := [listCmd dataset] }
  else
    let o := cloneForSandbox env s pool sessionKey
    { o with trace := listCmd dataset :: o.trace }

/-- `destroySandboxDataset` of zfs.ts: succeed without a destroy command when
the dataset is already absent; otherwise `zfs destroy -r <dataset>`. -/
def destroySandboxDataset (env : ZfsEnv) (s : ZfsState) (pool sessionKey : String) :
    ZfsOutcome Unit :=
  let dataset := resolveSandboxDatasetName pool sessionKey
  if !datasetExists s dataset then
    -- Already gone — idempotent success.
    { result := .ok (), state := s, trace := [listCmd dataset] }
  else if env.destroyOk dataset then
    { result := .ok (), state := destroyRecursive s dataset
      trace := [listCmd dataset, ["destroy", "-r", dataset]] }
  else
    { result := .err ("Failed to destroy sandbox dataset: " ++ dataset), state := s
      trace := [listCmd dataset, ["destroy", "-r", dataset]] }

/-- `createBaseSnapshot` of zfs.ts: if the base snapshot exists, try to
destroy and recreate it; when the destroy fails (dependent clones), reuse
the existing snapshot; when absent, create it fresh. -/
def createBaseSnapshot (env : ZfsEnv) (s : ZfsState) (pool : String) :
    ZfsOutcome String :=
  let baseDataset := pool ++ "/" ++ ZFS_DEFAULTS.baseJailDataset
  let snapshot := baseDataset ++ "@" ++ BASE_SNAPSHOT_LABEL
  if snapshotExists s snapshot then
    if env.destroySnapOk snapshot then
      let s1 := removeSnapshot s snapshot
      if env.snapshotOk snapshot then
        { result := .ok snapshot, state := addSnapshot s1 snapshot
          trace := [listSnapCmd snapshot, ["destroy", snapshot], ["snapshot", snapshot]] }
      else
        { result := .err ("Failed to create base snapshot: " ++ snapshot), state := s1
          trace := [listSnapCmd snapshot, ["destroy", snapshot], ["snapshot", snapshot]] }
    else
      -- Dependent clones exist; reuse the existing snapshot.
      { result := .ok snapshot, state := s
        trace := [listSnapCmd snapshot, ["destroy", snapshot]] }
  else
    if env.snapshotOk snapshot then
      { result := .ok snapshot, state := addSnapshot s snapshot
        trace := [listSnapCmd snapshot, ["snapshot", snapshot]] }
    else
      { result := .err ("Failed to create base snapshot: " ++ snapshot), state := s
        trace := [listSnapCmd snapshot, ["snapshot", snapshot]] }

-- ---------------------------------------------------------------------------
-- Concrete environments and states used by the witnesses
-- ---------------------------------------------------------------------------

/-- Environment in which every external command succeeds and no race occurs. -/
def envAllOk : ZfsEnv :=
  { createOk := fun _ => true
    raceAppears := fun _ => false
    cloneOk := fun _ _ => true
    destroyOk := fun _ => true
    destroySnapOk := fun _ => true
    snapshotOk := fun _ => true }

/-- Environment in which every `create` fails but a re-check finds the dataset
(a concurrent creator won every race); everything else succeeds. -/
def envRaceLost : ZfsEnv :=
  { envAllOk with createOk := fun _ => false, raceAppears := fun _ => true }

/-- Environment in which every `create` fails and the re-check still finds
nothing. -/
def envCreateFails : ZfsEnv :=
  { envAllOk with createOk := fun _ => false, raceAppears := fun _ => false }

/-- Environment in which destroying the base snapshot fails (dependent
clones); everything else succeeds. -/
def envSnapHeld : ZfsEnv :=
  { envAllOk with destroySnapOk := fun _ => false }

/-- A world already holding the sandbox dataset of session key `k1`. -/
def stWithSandbox : ZfsState :=
  { datasets := ["zroot/freeclaw/sandboxes/k1"], snapshots := [] }

/-- The empty world. -/
def stEmpty : ZfsState := { datasets := [], snapshots := [] }

-- ---------------------------------------------------------------------------
-- Small facts about the world state
-- ---------------------------------------------------------------------------

theorem datasetExists_addDataset_self (s : ZfsState) (d : String) :
    datasetExists (addDataset s d) d = true := by
  simp [datasetExists, addDataset]

theorem snapshotExists_addSnapshot_self (s : ZfsState) (n : String) :
    snapshotExists (addSnapshot s n) n = true := by
  simp [snapshotExists, addSnapshot]

-- ---------------------------------------------------------------------------
-- C1
-- ---------------------------------------------------------------------------

/-- C1: `ensureSandboxDataset` / `cloneForSandbox` is idempotent per session
key: when the sandbox dataset already exists the call returns it, leaves the
world unchanged and issues no mutating ZFS command; otherwise the parent
hierarchy is ensured first (issuing `zfs create -p` when the parent is
absent), the final command is the copy-on-write clone of
`base-dataset@base-snapshot` into the sandbox dataset, and — when the clone
command succeeds — the dataset exists afterwards and is returned. -/
theorem ensureSandboxDataset_idempotent (env : ZfsEnv) (s : ZfsState)
    (pool key ds parent baseSnap : String)
    (hds : ds = resolveSandboxDatasetName pool key)
    (hparent : parent = parentOf ds)
    (hsnap : baseSnap = pool ++ "/" ++ ZFS_DEFAULTS.baseJailDataset ++ "@" ++ BASE_SNAPSHOT_LABEL) :
    (datasetExists s ds = true →
       (ensureSandboxDataset env s pool key).result = .ok ds ∧
       (ensureSandboxDataset env s pool key).state = s ∧
       ∀ c ∈ (ensureSandboxDataset env s pool key).trace, isMutatingCmd c = false) ∧
    (datasetExists s ds = false →
     (datasetExists s parent = true ∨ env.createOk parent = true ∨
        env.raceAppears parent = true) →
       (∃ tr, (ensureSandboxDataset env s pool key).trace = tr ++ [["clone", baseSnap, ds]] ∧
          (datasetExists s parent = false → ["create", "-p", parent] ∈ tr)) ∧
       (env.cloneOk baseSnap ds = true →
          (ensureSandboxDataset env s pool key).result = .ok ds ∧
          datasetExists (ensureSandboxDataset env s pool key).state ds = true)) := by
  subst hds hparent hsnap
  constructor
  · intro hex
    refine ⟨?_, ?_, ?_⟩ <;>
      simp [ensureSandboxDataset, hex, listCmd, isMutatingCmd]
  · intro hex hpar
    cases hp : datasetExists s (parentOf (resolveSandboxDatasetName pool key)) with
    | true =>
      refine ⟨⟨[listCmd (resolveSandboxDatasetName pool key),
          listCmd (resolveSandboxDatasetName pool key),
          listCmd (parentOf (resolveSandboxDatasetName pool key))], ?_, ?_⟩, ?_⟩
      · cases hclone : env.cloneOk
            (pool ++ "/" ++ ZFS_DEFAULTS.baseJailDataset ++ "@" ++ BASE_SNAPSHOT_LABEL)
            (resolveSandboxDatasetName pool key) <;>
          simp [ensureSandboxDataset, cloneForSandbox, cloneStep, hex, hp, hclone]
      · intro hpf
        exact absurd hpf (by decide)
      · intro hclone
        constructor <;>
          simp [ensureSandboxDataset, cloneForSandbox, cloneStep, hex, hp, hclone,
            datasetExists_addDataset_self]
    | false =>
      cases hcr : env.createOk (parentOf (resolveSandboxDatasetName pool key)) with
      | true =>
        refine ⟨⟨[listCmd (resolveSandboxDatasetName pool key),
            listCmd (resolveSandboxDatasetName pool key),
            listCmd (parentOf (resolveSandboxDatasetName pool key)),
            ["create", "-p", parentOf (resolveSandboxDatasetName pool key)]], ?_, ?_⟩, ?_⟩
        · cases hclone : env.cloneOk
              (pool ++ "/" ++ ZFS_DEFAULTS.baseJailDataset ++ "@" ++ BASE_SNAPSHOT_LABEL)
              (resolveSandboxDatasetName pool key) <;>
            simp [ensureSandboxDataset, cloneForSandbox, cloneStep, hex, hp, hcr, hclone]
        · intro _
          simp
        · intro hclone
          constructor <;>
            simp [ensureSandboxDataset, cloneForSandbox, cloneStep, hex, hp, hcr, hclone,
              datasetExists_addDataset_self]
      | false =>
        have hrace : env.raceAppears (parentOf (resolveSandboxDatasetName pool key)) = true := by
          rcases hpar with h | h | h
          · rw [hp] at h
            exact absurd h (by decide)
          · rw [hcr] at h
            exact absurd h (by decide)
          · exact h
        refine ⟨⟨[listCmd (resolveSandboxDatasetName pool key),
            listCmd (resolveSandboxDatasetName pool key),
            listCmd (parentOf (resolveSandboxDatasetName pool key)),
            ["create", "-p", parentOf (resolveSandboxDatasetName pool key)],
            listCmd (parentOf (resolveSandboxDatasetName pool key))], ?_, ?_⟩, ?_⟩
        · cases hclone : env.cloneOk
              (pool ++ "/" ++ ZFS_DEFAULTS.baseJailDataset ++ "@" ++ BASE_SNAPSHOT_LABEL)
              (resolveSandboxDatasetName pool key) <;>
            simp [ensureSandboxDataset, cloneForSandbox, cloneStep, hex, hp, hcr, hrace, hclone]
        · intro _
          simp
        · intro hclone
          constructor <;>
            simp [ensureSandboxDataset, cloneForSandbox, cloneStep, hex, hp, hcr, hrace,
              hclone, datasetExists_addDataset_self]

/-- C1 witness: in a world already holding the sandbox dataset of `k1`, the
ensure call returns it with the world unchanged, and on the empty world the
ensure call for `k2` returns the freshly cloned dataset. -/
theorem ensureSandboxDataset_idempotent_witness :
    (ensureSandboxDataset envAllOk stWithSandbox "zroot" "k1").result
      = ZfsResult.ok "zroot/freeclaw/sandboxes/k1" ∧
    (ensureSandboxDataset envAllOk stWithSandbox "zroot" "k1").state = stWithSandbox ∧
    (ensureSandboxDataset envAllOk stEmpty "zroot" "k2").result
      = ZfsResult.ok "zroot/freeclaw/sandboxes/k2" := by
  have h1 := ensureSandboxDataset_idempotent envAllOk stWithSandbox "zroot" "k1"
    _ _ _ rfl rfl rfl
  have h2 := ensureSandboxDataset_idempotent envAllOk stEmpty "zroot" "k2"
    _ _ _ rfl rfl rfl
  refine ⟨(h1.1 (by decide)).1, (h1.1 (by decide)).2.1, ?_⟩
  exact (h2.2 (by decide) (Or.inr (Or.inl (by decide))) |>.2 (by decide)).1

-- ---------------------------------------------------------------------------
-- C2
-- ---------------------------------------------------------------------------

/-- C2: `destroySandboxDataset` is idempotent: when the sandbox dataset does
not exist the call succeeds without invoking any destroy command; when it
exists the code issues exactly `zfs destroy -r <dataset>`, and on success the
dataset, its descendant datasets and all their snapshots are gone. -/
theorem destroySandboxDataset_idempotent (env : ZfsEnv) (s : ZfsState)
    (pool key ds : String) (hds : ds = resolveSandboxDatasetName pool key) :
    (datasetExists s ds = false →
       (destroySandboxDataset env s pool key).result = .ok () ∧
       (destroySandboxDataset env s pool key).state = s ∧
       ∀ c ∈ (destroySandboxDataset env s pool key).trace, c.head? ≠ some "destroy") ∧
    (datasetExists s ds = true →
       (destroySandboxDataset env s pool key).trace = [listCmd ds, ["destroy", "-r", ds]] ∧
       (env.destroyOk ds = true →
          (destroySandboxDataset env s pool key).result = .ok () ∧
          (∀ d ∈ (destroySandboxDataset env s pool key).state.datasets,
             underDataset ds d = false) ∧
          (∀ n ∈ (destroySandboxDataset env s pool key).state.snapshots,
             snapUnderDataset ds n = false))) := by
  subst hds
  constructor
  · intro hex
    refine ⟨?_, ?_, ?_⟩ <;> simp [destroySandboxDataset, hex, listCmd]
  · intro hex
    cases hdo : env.destroyOk (resolveSandboxDatasetName pool key) with
    | true =>
      refine ⟨?_, fun _ => ⟨?_, ?_, ?_⟩⟩ <;>
        simp [destroySandboxDataset, hex, hdo, destroyRecursive, List.mem_filter]
    | false =>
      refine ⟨?_, ?_⟩ <;> simp [destroySandboxDataset, hex, hdo]

/-- C2 witness: destroying an absent sandbox succeeds and changes nothing;
destroying a present one (with a descendant snapshot in the world) succeeds
and removes both. -/
theorem destroySandboxDataset_idempotent_witness :
    (destroySandboxDataset envAllOk stEmpty "zroot" "k1").result = ZfsResult.ok () ∧
    (destroySandboxDataset envAllOk stEmpty "zroot" "k1").state = stEmpty ∧
    (destroySandboxDataset envAllOk
        { datasets := ["zroot/freeclaw/sandboxes/k1", "zroot/freeclaw/sandboxes/k1/sub"]
          snapshots := ["zroot/freeclaw/sandboxes/k1@snap"] } "zroot" "k1").result
      = ZfsResult.ok () := by
  have h1 := destroySandboxDataset_idempotent envAllOk stEmpty "zroot" "k1" _ rfl
  have h2 := destroySandboxDataset_idempotent envAllOk
    { datasets := ["zroot/freeclaw/sandboxes/k1", "zroot/freeclaw/sandboxes/k1/sub"]
      snapshots := ["zroot/freeclaw/sandboxes/k1@snap"] } "zroot" "k1" _ rfl
  exact ⟨(h1.1 (by decide)).1, (h1.1 (by decide)).2.1,
    ((h2.2 (by decide)).2 (by decide)).1⟩

-- ---------------------------------------------------------------------------
-- C3
-- ---------------------------------------------------------------------------

/-- C3: dataset-creation races are tolerated.  For `ensureWorkspaceDataset`
and for the parent-hierarchy step of `cloneForSandbox`: if the dataset was
absent at the pre-check and the create command fails, the operation returns
success when a re-check finds the dataset (a concurrent creator won) and
propagates an error only when the dataset is still absent after the
re-check. -/
theorem create_race_recovered (env : ZfsEnv) (s : ZfsState)
    (pool agentId key wds sds parent baseSnap : String)
    (hwds : wds = resolveWorkspaceDatasetName pool agentId)
    (hsds : sds = resolveSandboxDatasetName pool key)
    (hparent : parent = parentOf sds)
    (hsnap : baseSnap = pool ++ "/" ++ ZFS_DEFAULTS.baseJailDataset ++ "@" ++ BASE_SNAPSHOT_LABEL) :
    (datasetExists s wds = false → env.createOk wds = false →
       (env.raceAppears wds = true →
          (ensureWorkspaceDataset env s pool agentId).result = .ok wds) ∧
       (env.raceAppears wds = false →
          (ensureWorkspaceDataset env s pool agentId).result
            = .err ("Failed to create workspace dataset: " ++ wds))) ∧
    (datasetExists s sds = false → datasetExists s parent = false →
     env.createOk parent = false →
       (env.raceAppears parent = true → env.cloneOk baseSnap sds = true →
          (cloneForSandbox env s pool key).result = .ok sds) ∧
       (env.raceAppears parent = false →
          (cloneForSandbox env s pool key).result
            = .err ("Failed to create parent dataset: " ++ parent))) := by
  subst hwds hsds hparent hsnap
  constructor
  · intro hex hcr
    constructor
    · intro hrace
      simp [ensureWorkspaceDataset, hex, hcr, hrace]
    · intro hrace
      simp [ensureWorkspaceDataset, hex, hcr, hrace]
  · intro hex hpex hcr
    constructor
    · intro hrace hclone
      simp [cloneForSandbox, cloneStep, hex, hpex, hcr, hrace, hclone]
    · intro hrace
      simp [cloneForSandbox, hex, hpex, hcr, hrace]

/-- C3 witness: on the empty world with every create failing, the operations
succeed when the re-check finds the dataset and fail when it does not. -/
theorem create_race_recovered_witness :
    (ensureWorkspaceDataset envRaceLost stEmpty "zroot" "a1").result
      = ZfsResult.ok "zroot/freeclaw/workspaces/a1" ∧
    (cloneForSandbox envRaceLost stEmpty "zroot" "k1").result
      = ZfsResult.ok "zroot/freeclaw/sandboxes/k1" ∧
    (ensureWorkspaceDataset envCreateFails stEmpty "zroot" "a1").result
      = ZfsResult.err
          "Failed to create workspace dataset: zroot/freeclaw/workspaces/a1" ∧
    (cloneForSandbox envCreateFails stEmpty "zroot" "k1").result
      = ZfsResult.err "Failed to create parent dataset: zroot/freeclaw/sandboxes" := by
  have h1 := create_race_recovered envRaceLost stEmpty "zroot" "a1" "k1"
    _ _ _ _ rfl rfl rfl rfl
  have h2 := create_race_recovered envCreateFails stEmpty "zroot" "a1" "k1"
    _ _ _ _ rfl rfl rfl rfl
  refine ⟨(h1.1 (by decide) (by decide)).1 (by decide), ?_, ?_, ?_⟩
  · have := (h1.2 (by decide) (by decide) (by decide)).1 (by decide) (by decide)
    simpa using this
  · exact (h2.1 (by decide) (by decide)).2 (by decide)
  · have := (h2.2 (by decide) (by decide) (by decide)).2 (by decide)
    simpa using this

-- ---------------------------------------------------------------------------
-- C10
-- ---------------------------------------------------------------------------

/-- C10: after a successful `createBaseSnapshot` call the base snapshot
exists; if the snapshot exists but destroying it fails (dependent clones) the
call returns the existing snapshot name as success and changes nothing; and a
fresh `zfs snapshot` is issued exactly when the snapshot was absent or was
successfully destroyed. -/
theorem createBaseSnapshot_clone_safe (env : ZfsEnv) (s : ZfsState)
    (pool snap : String)
    (hsnap : snap = pool ++ "/" ++ ZFS_DEFAULTS.baseJailDataset ++ "@" ++ BASE_SNAPSHOT_LABEL) :
    (∀ name, (createBaseSnapshot env s pool).result = .ok name →
       name = snap ∧ snapshotExists (createBaseSnapshot env s pool).state snap = true) ∧
    (snapshotExists s snap = true → env.destroySnapOk snap = false →
       (createBaseSnapshot env s pool).result = .ok snap ∧
       (createBaseSnapshot env s pool).state = s) ∧
    (["snapshot", snap] ∈ (createBaseSnapshot env s pool).trace ↔
       (snapshotExists s snap = false ∨ env.destroySnapOk snap = true)) := by
  subst hsnap
  cases hex : snapshotExists s
      (pool ++ "/" ++ ZFS_DEFAULTS.baseJailDataset ++ "@" ++ BASE_SNAPSHOT_LABEL) with
  | true =>
    cases hdo : env.destroySnapOk
        (pool ++ "/" ++ ZFS_DEFAULTS.baseJailDataset ++ "@" ++ BASE_SNAPSHOT_LABEL) with
    | true =>
      cases hso : env.snapshotOk
          (pool ++ "/" ++ ZFS_DEFAULTS.baseJailDataset ++ "@" ++ BASE_SNAPSHOT_LABEL) with
      | true =>
        refine ⟨?_, ?_, ?_⟩ <;>
          simp [createBaseSnapshot, hex, hdo, hso, snapshotExists_addSnapshot_self, listSnapCmd]
      | false =>
        refine ⟨?_, ?_, ?_⟩ <;>
          simp [createBaseSnapshot, hex, hdo, hso, listSnapCmd]
    | false =>
      refine ⟨?_, ?_, ?_⟩ <;>
        simp [createBaseSnapshot, hex, hdo, listSnapCmd]
  | false =>
    cases hso : env.snapshotOk
        (pool ++ "/" ++ ZFS_DEFAULTS.baseJailDataset ++ "@" ++ BASE_SNAPSHOT_LABEL) with
    | true =>
      refine ⟨?_, ?_, ?_⟩ <;>
        simp [createBaseSnapshot, hex, hso, snapshotExists_addSnapshot_self, listSnapCmd]
    | false =>
      refine ⟨?_, ?_, ?_⟩ <;>
        simp [createBaseSnapshot, hex, hso, listSnapCmd]

/-- C10 witness: when the base snapshot is held by dependent clones the call
returns it unchanged; on the empty world the call creates it. -/
theorem createBaseSnapshot_clone_safe_witness :
    (createBaseSnapshot envSnapHeld
        { datasets := [], snapshots := ["zroot/freeclaw/base-jail@freeclaw-base"] }
        "zroot").result
      = ZfsResult.ok "zroot/freeclaw/base-jail@freeclaw-base" ∧
    (createBaseSnapshot envSnapHeld
        { datasets := [], snapshots := ["zroot/freeclaw/base-jail@freeclaw-base"] }
        "zroot").state
      = { datasets := [], snapshots := ["zroot/freeclaw/base-jail@freeclaw-base"] } ∧
    snapshotExists (createBaseSnapshot envAllOk stEmpty "zroot").state
      "zroot/freeclaw/base-jail@freeclaw-base" = true := by
  have h1 := createBaseSnapshot_clone_safe envSnapHeld
    { datasets := [], snapshots := ["zroot/freeclaw/base-jail@freeclaw-base"] } "zroot" _ rfl
  have h2 := createBaseSnapshot_clone_safe envAllOk stEmpty "zroot" _ rfl
  have hheld := h1.2.1 (by decide) (by decide)
  have hok : (createBaseSnapshot envAllOk stEmpty "zroot").result
      = ZfsResult.ok "zroot/freeclaw/base-jail@freeclaw-base" := by decide
  refine ⟨?_, ?_, ?_⟩
  · simpa using hheld.1
  · simpa using hheld.2
  · simpa using (h2.1 _ hok).2

-- ---------------------------------------------------------------------------
-- Jail sandbox: SandboxJailConfig and buildJailCreateArgs
-- ---------------------------------------------------------------------------

/-- VNET jail networking mode (`SandboxJailConfig.network`):
"inherit" (shared stack), "vnet", or "none". -/
inductive JailNetwork where
  | inherit
  | vnet
  | none
deriving Repr, DecidableEq

/-- One extra nullfs bind-mount specification of `SandboxJailConfig`. -/
structure NullfsMount where
  src : String
  dst : String
  readOnly : Option Bool
deriving Repr, DecidableEq

/-- `SandboxJailConfig` of types.jail.ts.  Optional TypeScript fields are
`Option`s; the `env` record is a key/value list. -/
structure SandboxJailConfig where
  baseDataset : String
  baseSnapshot : String
  cloneParent : String
  jailPrefix : String
  workdir : String
  readOnlyRoot : Bool
  tmpfs : List String
  network : JailNetwork
  uid : Option Int
  devfsRuleset : Option Int
  env : Option (List (String × String))
  setupCommand : Option String
  maxProc : Option Int
  memoryuse : Option Int
  vmemoryuse : Option Int
  pcpu : Option Int
  openfiles : Option Int
  coredumpsize : Option Int
  extraRctlRules : Option (List String)
  nullfsMounts : Option (List NullfsMount)
  jailParams : Option (List String)
  dns : Option (List String)
  extraHosts : Option (List String)

/-- `buildJailCreateArgs` of the jail sandbox module: the argument array for
`jail -c` — name, root path, persistence, host name; network mode flags;
read-only-root mount policy; `children.max=0`/`securelevel=3`; then the raw
extra parameters (trimmed, empty ones skipped). -/
def buildJailCreateArgs (jailName jailRoot : String) (cfg : SandboxJailConfig) :
    List String :=
  ["-c", "name=" ++ jailName, "path=" ++ jailRoot, "persist",
   "host.hostname=" ++ jailName]
  ++ (match cfg.network with
      | JailNetwork.none => ["ip4=disable", "ip6=disable"]
      | JailNetwork.vnet => ["vnet"]
      | JailNetwork.inherit => [])
  ++ (if cfg.readOnlyRoot then ["allow.mount=0", "enforce_statfs=2"]
      else ["allow.mount=1", "enforce_statfs=1"])
  ++ ["children.max=0", "securelevel=3"]
  ++ (cfg.jailParams.getD []).filterMap
      (fun p => if p.trim ≠ "" then some p.trim else none)

/-- Helper: a string that starts with character `a` never equals a string
whose first character is not `a`. -/
theorem append_ne_of_head_ne (p s t : String) (a : Char)
    (hp : p.data.head? = some a) (ht : t.data.head? ≠ some a) : p ++ s ≠ t := by
  intro he
  apply ht
  have hd : p.data ++ s.data = t.data := by
    have h2 := congrArg String.data he
    simpa [String.data_append] using h2
  cases hq : p.data with
  | nil =>
    rw [hq] at hp
    exact absurd hp (by simp)
  | cons b l =>
    rw [hq] at hd hp
    have hb : b = a := by simpa using hp
    rw [← hd, hb]
    rfl

/-- C5: for every jail configuration, the `jail -c` argument list always
contains `children.max=0` (no child jails) and `securelevel=3` (strictest
security level). -/
theorem buildJailCreateArgs_hardening (jailName jailRoot : String)
    (cfg : SandboxJailConfig) :
    "children.max=0" ∈ buildJailCreateArgs jailName jailRoot cfg ∧
    "securelevel=3" ∈ buildJailCreateArgs jailName jailRoot cfg := by
  constructor <;> simp [buildJailCreateArgs]

/-- C6: for every jail configuration, the `jail -c` argument list sets the
host name inside the unit equal to the unit name: its fifth element is
`host.hostname=<jailName>`. -/
theorem buildJailCreateArgs_hostname (jailName jailRoot : String)
    (cfg : SandboxJailConfig) :
    (buildJailCreateArgs jailName jailRoot cfg).get? 4
      = some ("host.hostname=" ++ jailName) ∧
    ("host.hostname=" ++ jailName) ∈ buildJailCreateArgs jailName jailRoot cfg := by
  refine ⟨rfl, ?_⟩
  simp [buildJailCreateArgs]

/-- C7: the read-only-root flag maps to the mount policy flags: read-only
root yields `allow.mount=0` and `enforce_statfs=2`, a writable root yields
`allow.mount=1` and `enforce_statfs=1`; and, as long as the raw extra
parameters do not themselves inject one of these four tokens, the flags of
the opposite policy never appear. -/
theorem buildJailCreateArgs_mount_policy (jailName jailRoot : String)
    (cfg : SandboxJailConfig) :
    (cfg.readOnlyRoot = true →
       "allow.mount=0" ∈ buildJailCreateArgs jailName jailRoot cfg ∧
       "enforce_statfs=2" ∈ buildJailCreateArgs jailName jailRoot cfg) ∧
    (cfg.readOnlyRoot = false →
       "allow.mount=1" ∈ buildJailCreateArgs jailName jailRoot cfg ∧
       "enforce_statfs=1" ∈ buildJailCreateArgs jailName jailRoot cfg) ∧
    ((∀ p ∈ cfg.jailParams.getD [], p.trim ≠ "allow.mount=0" ∧ p.trim ≠ "allow.mount=1" ∧
        p.trim ≠ "enforce_statfs=1" ∧ p.trim ≠ "enforce_statfs=2") →
       (("allow.mount=0" ∈ buildJailCreateArgs jailName jailRoot cfg)
          ↔ cfg.readOnlyRoot = true) ∧
       (("enforce_statfs=2" ∈ buildJailCreateArgs jailName jailRoot cfg)
          ↔ cfg.readOnlyRoot = true) ∧
       (("allow.mount=1" ∈ buildJailCreateArgs jailName jailRoot cfg)
          ↔ cfg.readOnlyRoot = false) ∧
       (("enforce_statfs=1" ∈ buildJailCreateArgs jailName jailRoot cfg)
          ↔ cfg.readOnlyRoot = false)) := by
  refine ⟨?_, ?_, ?_⟩
  · intro hro
    constructor <;> simp [buildJailCreateArgs, hro]
  · intro hro
    constructor <;> simp [buildJailCreateArgs, hro]
  · intro hparams
    have hnotin : ∀ x : String, x.data.head? = some 'a' ∨ x.data.head? = some 'e' →
        (∀ p ∈ cfg.jailParams.getD [], p.trim ≠ x) →
        x ∉ (["-c", "name=" ++ jailName, "path=" ++ jailRoot, "persist",
              "host.hostname=" ++ jailName] : List String) ∧
        x ∉ (match cfg.network with
             | JailNetwork.none => ["ip4=disable", "ip6=disable"]
             | JailNetwork.vnet => ["vnet"]
             | JailNetwork.inherit => ([] : List String)) ∧
        x ∉ (["children.max=0", "securelevel=3"] : List String) ∧
        x ∉ (cfg.jailParams.getD []).filterMap
            (fun p => if p.trim ≠ "" then some p.trim else none) := by
      intro x hhead hpar
      have hnne : x.data.head? ≠ some 'n' := by
        rcases hhead with h | h <;> simp [h]
      have hpne : x.data.head? ≠ some 'p' := by
        rcases hhead with h | h <;> simp [h]
      have hhne : x.data.head? ≠ some 'h' := by
        rcases hhead with h | h <;> simp [h]
      refine ⟨?_, ?_, ?_, ?_⟩
      · intro hmem
        rcases List.mem_cons.mp hmem with h | hmem
        · subst h
          rcases hhead with h | h <;> exact absurd h (by decide)
        rcases List.mem_cons.mp hmem with h | hmem
        · exact append_ne_of_head_ne "name=" jailName x 'n' (by decide) hnne h.symm
        rcases List.mem_cons.mp hmem with h | hmem
        · exact append_ne_of_head_ne "path=" jailRoot x 'p' (by decide) hpne h.symm
        rcases List.mem_cons.mp hmem with h | hmem
        · subst h
          rcases hhead with h | h <;> exact absurd h (by decide)
        rcases List.mem_cons.mp hmem with h | hmem
        · exact append_ne_of_head_ne "host.hostname=" jailName x 'h' (by decide) hhne h.symm
        · exact absurd hmem (List.not_mem_nil x)
      · cases cfg.network with
        | none =>
          intro hmem
          rcases List.mem_cons.mp hmem with h | hmem
          · subst h
            rcases hhead with h | h <;> exact absurd h (by decide)
          rcases List.mem_cons.mp hmem with h | hmem
          · subst h
            rcases hhead with h | h <;> exact absurd h (by decide)
          · exact absurd hmem (List.not_mem_nil x)
        | vnet =>
          intro hmem
          rcases List.mem_cons.mp hmem with h | hmem
          · subst h
            rcases hhead with h | h <;> exact absurd h (by decide)
          · exact absurd hmem (List.not_mem_nil x)
        | inherit =>
          intro hmem
          exact absurd hmem (List.not_mem_nil x)
      · intro hmem
        rcases List.mem_cons.mp hmem with h | hmem
        · subst h
          rcases hhead with h | h <;> exact absurd h (by decide)
        rcases List.mem_cons.mp hmem with h | hmem
        · subst h
          rcases hhead with h | h <;> exact absurd h (by decide)
        · exact absurd hmem (List.not_mem_nil x)
      · intro hmem
        rcases List.mem_filterMap.mp hmem with ⟨p, hpmem, hpeq⟩
        by_cases hne : p.trim = ""
        · simp [hne] at hpeq
        · simp [hne] at hpeq
          exact hpar p hpmem hpeq
    have h0 := hnotin "allow.mount=0" (Or.inl (by decide))
      (fun p hp => (hparams p hp).1)
    have h1 := hnotin "allow.mount=1" (Or.inl (by decide))
      (fun p hp => (hparams p hp).2.1)
    have h2 := hnotin "enforce_statfs=2" (Or.inr (by decide))
      (fun p hp => (hparams p hp).2.2.2)
    have h3 := hnotin "enforce_statfs=1" (Or.inr (by decide))
      (fun p hp => (hparams p hp).2.2.1)
    rcases Bool.eq_false_or_eq_true cfg.readOnlyRoot with hro | hro
    · refine ⟨⟨?_, ?_⟩, ⟨?_, ?_⟩, ⟨?_, ?_⟩, ⟨?_, ?_⟩⟩
      · intro _
        exact hro
      · intro _
        simp [buildJailCreateArgs, hro]
      · intro _
        exact hro
      · intro _
        simp [buildJailCreateArgs, hro]
      · intro hmem
        exfalso
        rcases List.mem_append.mp hmem with h4 | hE
        rcases List.mem_append.mp h4 with h3' | hD
        rcases List.mem_append.mp h3' with h2' | hC
        rcases List.mem_append.mp h2' with hA | hB
        · exact h1.1 hA
        · exact h1.2.1 hB
        · rw [hro] at hC
          simp at hC
        · exact h1.2.2.1 hD
        · exact h1.2.2.2 hE
      · intro h
        rw [hro] at h
        exact absurd h (by decide)
      · intro hmem
        exfalso
        rcases List.mem_append.mp hmem with h4 | hE
        rcases List.mem_append.mp h4 with h3' | hD
        rcases List.mem_append.mp h3' with h2' | hC
        rcases List.mem_append.mp h2' with hA | hB
        · exact h3.1 hA
        · exact h3.2.1 hB
        · rw [hro] at hC
          simp at hC
        · exact h3.2.2.1 hD
        · exact h3.2.2.2 hE
      · intro h
        rw [hro] at h
        exact absurd h (by decide)
    · refine ⟨⟨?_, ?_⟩, ⟨?_, ?_⟩, ⟨?_, ?_⟩, ⟨?_, ?_⟩⟩
      · intro hmem
        exfalso
        rcases List.mem_append.mp hmem with h4 | hE
        rcases List.mem_append.mp h4 with h3' | hD
        rcases List.mem_append.mp h3' with h2' | hC
        rcases List.mem_append.mp h2' with hA | hB
        · exact h0.1 hA
        · exact h0.2.1 hB
        · rw [hro] at hC
          simp at hC
        · exact h0.2.2.1 hD
        · exact h0.2.2.2 hE
      · intro h
        rw [hro] at h
        exact absurd h (by decide)
      · intro hmem
        exfalso
        rcases List.mem_append.mp hmem with h4 | hE
        rcases List.mem_append.mp h4 with h3' | hD
        rcases List.mem_append.mp h3' with h2' | hC
        rcases List.mem_append.mp h2' with hA | hB
        · exact h2.1 hA
        · exact h2.2.1 hB
        · rw [hro] at hC
          simp at hC
        · exact h2.2.2.1 hD
        · exact h2.2.2.2 hE
      · intro h
        rw [hro] at h
        exact absurd h (by decide)
      · intro _
        exact hro
      · intro _
        simp [buildJailCreateArgs, hro]
      · intro _
        exact hro
      · intro _
        simp [buildJailCreateArgs, hro]

/-- Concrete read-only-root jail configuration used by the C7 witness. -/
def cfgReadOnly : SandboxJailConfig :=
  { baseDataset := "zroot/jails/base"
    baseSnapshot := "clean"
    cloneParent := "zroot/jails/sandboxes"
    jailPrefix := "cw-"
    workdir := "/workspace"
    readOnlyRoot := true
    tmpfs := ["/tmp"]
    network := JailNetwork.none
    uid := none
    devfsRuleset := none
    env := none
    setupCommand := none
    maxProc := none
    memoryuse := none
    vmemoryuse := none
    pcpu := none
    openfiles := none
    coredumpsize := none
    extraRctlRules := none
    nullfsMounts := none
    jailParams := none
    dns := none
    extraHosts := none }

/-- C7 witness: a concrete read-only-root configuration (no extra params)
yields the strict policy flags and not the relaxed ones. -/
theorem buildJailCreateArgs_mount_policy_witness :
    ("allow.mount=0" ∈ buildJailCreateArgs "cw" "/j/cw" cfgReadOnly ∧
     "enforce_statfs=2" ∈ buildJailCreateArgs "cw" "/j/cw" cfgReadOnly) ∧
    ¬ "allow.mount=1" ∈ buildJailCreateArgs "cw" "/j/cw" cfgReadOnly := by
  have h := buildJailCreateArgs_mount_policy "cw" "/j/cw" cfgReadOnly
  refine ⟨h.1 (by decide), ?_⟩
  intro hmem
  have hiff := (h.2.2 (by intro p hp; simp [cfgReadOnly] at hp)).2.2.1
  exact absurd (hiff.mp hmem) (by decide)

-- ---------------------------------------------------------------------------
-- jail.ts: JailConfig and generateJailFstab
-- ---------------------------------------------------------------------------

/-- One additional mount point of `JailConfig.mounts` (`{src, dst, readonly?}`). -/
structure JailMount where
  src : String
  dst : String
  readonly : Option Bool
deriving Repr, DecidableEq

/-- `JailConfig` of jail.ts. -/
structure JailConfig where
  name : String
  rootDir : String
  hostname : String
  ip4Addr : Option String
  interface : Option String
  gatewayPort : Int
  allowRawSockets : Option Bool
  mounts : Option (List JailMount)

/-- The lines pushed by `generateJailFstab`: the comment header, then one
`mount_nullfs` fstab entry per configured mount. -/
def fstabLines (cfg : JailConfig) : List String :=
  "# FreeClaw jail mount points" ::
    (match cfg.mounts with
     | some ms => ms.map (fun m =>
         m.src ++ "\t" ++ cfg.rootDir ++ m.dst ++ "\tnullfs\t" ++
           (if m.readonly.getD false then "ro" else "rw") ++ "\t0\t0")
     | none => [])

/-- `generateJailFstab` of jail.ts: the joined lines with a final newline. -/
def generateJailFstab (cfg : JailConfig) : String :=
  String.intercalate "\n" (fstabLines cfg) ++ "\n"

/-- C8: the generated in-jail fstab has exactly one nullfs entry per
configured mount, in input order, whose source is the mount's `src`, whose
destination is the jail root path prefixed to the mount's `dst`, and whose
mount option is `ro` exactly when that mount's readonly flag is set and `rw`
otherwise (each mount independently). -/
theorem generateJailFstab_entries (cfg : JailConfig) (ms : List JailMount)
    (h : cfg.mounts = some ms) :
    (fstabLines cfg).length = ms.length + 1 ∧
    (∀ i, i < ms.length →
       (fstabLines cfg).get? (i + 1) = (ms.get? i).map (fun m =>
         m.src ++ "\t" ++ cfg.rootDir ++ m.dst ++ "\tnullfs\t" ++
           (if m.readonly.getD false then "ro" else "rw") ++ "\t0\t0")) ∧
    generateJailFstab cfg = String.intercalate "\n" (fstabLines cfg) ++ "\n" := by
  refine ⟨?_, ?_, rfl⟩
  · simp [fstabLines, h]
  · intro i _
    simp [fstabLines, h]

/-- Concrete jail configuration with two extra mounts, one read-only and one
read-write, used by the C8 witness. -/
def cfgTwoMounts : JailConfig :=
  { name := "fc0"
    rootDir := "/usr/local/jails/fc0"
    hostname := "fc0.local"
    ip4Addr := some "127.0.1.1"
    interface := some "lo1"
    gatewayPort := 18789
    allowRawSockets := some false
    mounts := some
      [{ src := "/host/ro", dst := "/mnt/ro", readonly := some true },
       { src := "/host/rw", dst := "/mnt/rw", readonly := none }] }

/-- C8 witness: a two-mount configuration, one read-only and one
read-write. -/
theorem generateJailFstab_entries_witness :
    (fstabLines cfgTwoMounts).length = 3 ∧
    (fstabLines cfgTwoMounts).get? 1
      = some ("/host/ro\t/usr/local/jails/fc0/mnt/ro\tnullfs\tro\t0\t0") ∧
    (fstabLines cfgTwoMounts).get? 2
      = some ("/host/rw\t/usr/local/jails/fc0/mnt/rw\tnullfs\trw\t0\t0") := by
  have h := generateJailFstab_entries cfgTwoMounts
    [{ src := "/host/ro", dst := "/mnt/ro", readonly := some true },
     { src := "/host/rw", dst := "/mnt/rw", readonly := none }] rfl
  refine ⟨h.1, ?_, ?_⟩
  · have := h.2.1 0 (by decide)
    simpa [cfgTwoMounts] using this
  · have := h.2.1 1 (by decide)
    simpa [cfgTwoMounts] using this

-- ---------------------------------------------------------------------------
-- Jail exec (jailExec of the jail sandbox module)
-- ---------------------------------------------------------------------------

/-- The single-quote character, written by code point to keep source plain. -/
def squote : Char := Char.ofNat 39

/-- Characters of the safe-token pattern `[a-zA-Z0-9_./:=@%^+,-]` of
`shellEscape`. -/
def shellSafeChar (c : Char) : Bool :=
  c.isAlpha || c.isDigit ||
    c ∈ ['_', '.', '/', ':', '=', '@', '%', '^', '+', ',', '-']

/-- `shellEscape` of the jail sandbox module: a non-empty string of safe
characters passes through; anything else is wrapped in single quotes, each
embedded single quote replaced by quote-backslash-quote-quote. -/
def shellEscape (s : String) : String :=
  if s.length > 0 && s.toList.all shellSafeChar then s
  else
    String.singleton squote ++
      String.join (s.toList.map (fun c =>
        if c = squote then
          String.singleton squote ++ "\\" ++ String.singleton squote ++
            String.singleton squote
        else
          String.singleton c)) ++
      String.singleton squote

/-- Options of `jailExec` (`opts?`): absent options are the defaults of the
source's optional-chaining reads. -/
structure JailExecOpts where
  allowFailure : Bool
  env : List (String × String)
  uid : Option Int
  workdir : Option String

/-- Result record `{ stdout, stderr, code }` returned by `jailExec`. -/
structure ExecResult where
  stdout : String
  stderr : String
  code : Int
deriving Repr, DecidableEq

/-- Outcome of one `execFile` spawn: Node resolves with stdout/stderr on exit
code 0 and rejects with an error object (optional captured output, optional
numeric code) otherwise. -/
inductive SpawnOutcome where
  | success (stdout stderr : String)
  | failure (stdout stderr : Option String) (code : Option Int)

/-- Environment supplying the outcome of each spawned process by binary name
and argument vector. -/
structure ProcEnv where
  run : String → List String → SpawnOutcome

/-- Argument vector `jailExec` passes to `jexec`: optional `-U uid`, the
jail name, then either the raw command or — when env vars or a workdir are
requested — a `/usr/bin/env ... sh -c` wrapper whose command string first
changes directory and then runs the original tokens shell-escaped. -/
def jailExecArgs (jailName : String) (command : List String)
    (opts : JailExecOpts) : List String :=
  (match opts.uid with
   | some u => ["-U", toString u]
   | none => [])
  ++ [jailName]
  ++ (if !opts.env.isEmpty || opts.workdir.isSome then
        let envPairs := opts.env.map (fun kv => kv.1 ++ "=" ++ kv.2)
        let cdPrefix := match opts.workdir with
          | some w => "cd " ++ shellEscape w ++ " &&"
          | none => ""
        let inner := String.intercalate " " (command.map shellEscape)
        ["/usr/bin/env"] ++ envPairs ++ ["sh", "-c", cdPrefix ++ " " ++ inner]
      else command)

/-- `jailExec` of the jail sandbox module: run a command in a jail via
`jexec`; exit code 0 resolves with the captured output; a failure resolves
with the captured output and code when `allowFailure` is set and otherwise
raises an error built from the captured stderr (or a fallback message). -/
def jailExec (penv : ProcEnv) (jailName : String) (command : List String)
    (opts : JailExecOpts) : Except String ExecResult :=
  match penv.run "jexec" (jailExecArgs jailName command opts) with
  | SpawnOutcome.success out err =>
      Except.ok { stdout := out, stderr := err, code := 0 }
  | SpawnOutcome.failure out err code =>
      let c := code.getD 1
      if opts.allowFailure then
        Except.ok { stdout := out.getD "", stderr := err.getD "", code := c }
      else
        Except.error
          (if (err.getD "").trim ≠ "" then (err.getD "").trim
           else "jexec " ++ jailName ++ " " ++ String.intercalate " " command
             ++ " failed (exit " ++ toString c ++ ")")

/-- C4: every exec in the jail-sandbox exec path returns the captured
standard output, standard error and exit code; a non-zero exit (a rejected
spawn) is surfaced as an error unless the caller opted into tolerating
failure (`allowFailure`), in which case the captured output and code are
returned as data. -/
theorem jailExec_exec_contract (penv : ProcEnv) (jailName : String)
    (command : List String) (opts : JailExecOpts) :
    (∀ out err, penv.run "jexec" (jailExecArgs jailName command opts)
        = SpawnOutcome.success out err →
       jailExec penv jailName command opts
         = Except.ok { stdout := out, stderr := err, code := 0 }) ∧
    (∀ out err code, penv.run "jexec" (jailExecArgs jailName command opts)
        = SpawnOutcome.failure out err code →
       (opts.allowFailure = true →
          jailExec penv jailName command opts
            = Except.ok { stdout := out.getD "", stderr := err.getD ""
                          code := code.getD 1 }) ∧
       (opts.allowFailure = false →
          ∃ msg, jailExec penv jailName command opts = Except.error msg)) := by
  constructor
  · intro out err hrun
    simp [jailExec, hrun]
  · intro out err code hrun
    constructor
    · intro hallow
      simp [jailExec, hrun, hallow]
    · intro hallow
      refine ⟨(if (err.getD "").trim ≠ "" then (err.getD "").trim
               else "jexec " ++ jailName ++ " " ++ String.intercalate " " command
                 ++ " failed (exit " ++ toString (code.getD 1) ++ ")"), ?_⟩
      simp [jailExec, hrun, hallow]

/-- Spawn environment where every invocation fails with exit code 2 and
captured output. -/
def procEnvFail : ProcEnv :=
  { run := fun _ _ => SpawnOutcome.failure (some "partial out") (some "boom") (some 2) }

/-- Spawn environment where every invocation succeeds. -/
def procEnvOk : ProcEnv :=
  { run := fun _ _ => SpawnOutcome.success "hello" "" }

/-- C4 witness: a succeeding spawn yields the captured output with exit code
0; a failing spawn is returned as data when failure is tolerated and as an
error when it is not. -/
theorem jailExec_exec_contract_witness :
    jailExec procEnvOk "cw-1" ["echo", "hi"]
        { allowFailure := false, env := [], uid := none, workdir := none }
      = Except.ok { stdout := "hello", stderr := "", code := 0 } ∧
    jailExec procEnvFail "cw-1" ["false"]
        { allowFailure := true, env := [], uid := none, workdir := none }
      = Except.ok { stdout := "partial out", stderr := "boom", code := 2 } ∧
    ∃ msg, jailExec procEnvFail "cw-1" ["false"]
        { allowFailure := false, env := [], uid := none, workdir := none }
      = Except.error msg := by
  have h1 := jailExec_exec_contract procEnvOk "cw-1" ["echo", "hi"]
    { allowFailure := false, env := [], uid := none, workdir := none }
  have h2 := jailExec_exec_contract procEnvFail "cw-1" ["false"]
    { allowFailure := true, env := [], uid := none, workdir := none }
  have h3 := jailExec_exec_contract procEnvFail "cw-1" ["false"]
    { allowFailure := false, env := [], uid := none, workdir := none }
  refine ⟨h1.1 "hello" "" rfl, ?_, (h3.2 _ _ _ rfl).2 rfl⟩
  have := (h2.2 (some "partial out") (some "boom") (some 2) rfl).1 rfl
  simpa using this

-- ---------------------------------------------------------------------------
-- Capsicum launcher (buildCapsicumLauncher of the capsicum module)
-- ---------------------------------------------------------------------------

/-- `CapsicumPolicy` of the capsicum module. -/
structure CapsicumPolicy where
  allowRead : List String
  allowWrite : List String
  allowExec : List String
  allowNet : Bool
  tmpDir : Option String
deriving Repr, DecidableEq

/-- `buildCapsicumLauncher`: wrap a shell command in the `freeclaw-cap-exec`
helper when Capsicum is available and the helper compiled (argv
`[helper, workdir, allow-net, /bin/sh, -c, command]`, sandboxed); otherwise
return `["/bin/sh", "-c", command]` unwrapped with `sandboxed = false`.
`capsicumAvailable` models `isCapsicumAvailable()` and `helperPath` the
result of `generateCapHelper()` (`none` = compilation failed). -/
def buildCapsicumLauncher (capsicumAvailable : Bool) (helperPath : Option String)
    (command workdir : String) (policy : Option CapsicumPolicy) :
    List String × Bool :=
  if !capsicumAvailable then
    (["/bin/sh", "-c", command], false)
  else
    match helperPath with
    | none => (["/bin/sh", "-c", command], false)
    | some helper =>
      let allowNet := (policy.map CapsicumPolicy.allowNet).getD false
      ([helper, workdir, if allowNet then "1" else "0", "/bin/sh", "-c", command],
       true)

/-- C9: when capability-mode sandboxing is unavailable (the kernel lacks
Capsicum or the helper binary could not be compiled), the launcher does not
fail: it returns the argument vector `["/bin/sh", "-c", command]` unwrapped,
flagged `sandboxed = false`. -/
theorem buildCapsicumLauncher_fallback (capsicumAvailable : Bool)
    (helperPath : Option String) (command workdir : String)
    (policy : Option CapsicumPolicy)
    (h : capsicumAvailable = false ∨ helperPath = none) :
    buildCapsicumLauncher capsicumAvailable helperPath command workdir policy
      = (["/bin/sh", "-c", command], false) := by
  rcases h with h | h
  · simp [buildCapsicumLauncher, h]
  · cases hc : capsicumAvailable <;> simp [buildCapsicumLauncher, h, hc]

/-- C9 witness: with Capsicum unavailable the launcher falls back to the
plain shell invocation. -/
theorem buildCapsicumLauncher_fallback_witness :
    buildCapsicumLauncher false (some "/root/.freeclaw/bin/freeclaw-cap-exec")
        "make test" "/ws" none
      = (["/bin/sh", "-c", "make test"], false) ∧
    buildCapsicumLauncher true none "make test" "/ws" none
      = (["/bin/sh", "-c", "make test"], false) :=
  ⟨buildCapsicumLauncher_fallback false (some "/root/.freeclaw/bin/freeclaw-cap-exec")
      "make test" "/ws" none (Or.inl rfl),
   buildCapsicumLauncher_fallback true none "make test" "/ws" none (Or.inr rfl)⟩

end OpenClaw


